import Mathlib

/-!
# AutoShield: shallow embedding of the decision-and-dispatch core

This file embeds, in Lean 4, the Python sources of the `autoshield`
repository that the specification's claims are about:

* `python-ai/models.py` — the event / assessment / action-response data model;
* `python-ai/config.py` — the `Settings` object with its default values;
* `python-ai/threat_analyzer.py` — the `ThreatAnalyzer` class: scoring
  (`_assess_threat`), history (`_record_event`, `_get_recent_events`),
  cooldown gates (`_check_scan_cooldown`, `_check_block_cooldown`) and the
  dispatcher (`_execute_actions`, `analyze_and_respond`);
* `python-ai/mcp_client.py` — the `MCPClientManager` connection lifecycle
  (`connect`, `_discover_tools`, `call_tool`).

Modelling conventions:

* `datetime.utcnow()` is an explicit `now : Int` parameter (seconds);
  `timedelta(hours=h)` is `h * 3600`, `timedelta(seconds=s)` is `s`.
* Python `float` arithmetic in `_assess_threat` is modelled exactly in
  scaled integers (hundredths): the score starts as an integer, the only
  non-integer factor is the frequency multiplier `min(len * 0.2, 2.0)` — a
  multiple of `1/10` applied at most once — and the pattern bonus is the
  integer `30`, so every intermediate value is an integer multiple of
  `1/100` and `int(score)` is floor division by 100.  No claim settled
  here depends on the difference between binary floats and these exact
  values.
* Python dicts keyed by IP strings are modelled as functions
  `String → _` updated pointwise; Python sets of strings as membership
  predicates / lists.
* The remote MCP session and the network are modelled as explicit
  environment parameters (oracles): each possible remote interaction is a
  field of an environment record, so the embedded functions stay pure.
* Exception control flow becomes `Except`; an exception raised by a
  remote call is an `Except.error` carried by the oracle.
-/

namespace AutoShield

/-- `models.EventType` — closed string enum of security event types. -/
inductive EventType where
  | FAILED_LOGIN_ATTEMPT
  | SUSPICIOUS_PORT_SCAN
  | CONFIRMED_BRUTE_FORCE
  | CONFIRMED_ATTACK
  | HIGH_CPU_USAGE
  | HIGH_MEMORY_USAGE
  | UNUSUAL_NETWORK_ACTIVITY
  | MALWARE_DETECTED
deriving DecidableEq, Repr

/-- The `.value` string of each `EventType` member (Python `str` enum). -/
def EventType.value : EventType → String
  | .FAILED_LOGIN_ATTEMPT => "failed_login_attempt"
  | .SUSPICIOUS_PORT_SCAN => "suspicious_port_scan"
  | .CONFIRMED_BRUTE_FORCE => "confirmed_brute_force"
  | .CONFIRMED_ATTACK => "confirmed_attack"
  | .HIGH_CPU_USAGE => "high_cpu_usage"
  | .HIGH_MEMORY_USAGE => "high_memory_usage"
  | .UNUSUAL_NETWORK_ACTIVITY => "unusual_network_activity"
  | .MALWARE_DETECTED => "malware_detected"

/-- `models.SeverityLevel` — closed string enum of severity tiers. -/
inductive SeverityLevel where
  | LOW
  | MEDIUM
  | HIGH
  | CRITICAL
deriving DecidableEq, Repr

/-- The `.value` string of each `SeverityLevel` member. -/
def SeverityLevel.value : SeverityLevel → String
  | .LOW => "low"
  | .MEDIUM => "medium"
  | .HIGH => "high"
  | .CRITICAL => "critical"

/-- `config.Settings` with the default values of `config.py`.  Only the
fields the analyzer and the MCP client read are kept.  `WHITELISTED_IPS`
is the raw comma-separated string, parsed by the analyzer constructor. -/
structure Settings where
  MCP_CONNECTION_TIMEOUT : Int := 30
  MCP_CONNECTION_RETRIES : Nat := 3
  MCP_RETRY_DELAY : Nat := 5
  THREAT_SCORE_THRESHOLD : Int := 70
  FAILED_LOGIN_THRESHOLD : Nat := 5
  SCAN_COOLDOWN_SECONDS : Int := 300
  BLOCK_IP_COOLDOWN_SECONDS : Int := 3600
  WHITELISTED_IPS : String := "127.0.0.1,::1"
  ENABLE_AUTO_BLOCK : Bool := true
  ENABLE_VULNERABILITY_SCAN : Bool := true
  DRY_RUN_MODE : Bool := false

/-- One entry of `ThreatAnalyzer.ip_history[ip]`: the dict appended by
`_record_event` (`event_type` stored as its `.value` string). -/
structure HistRecord where
  event_type : String
  timestamp : Int
  severity : String
  details : List (String × String)
deriving DecidableEq, Repr

/-- `models.SecurityEvent` (the fields the analyzer reads). -/
structure SecurityEvent where
  event_type : EventType
  source_ip : String
  severity : SeverityLevel := .MEDIUM
  details : List (String × String) := []
deriving DecidableEq, Repr

/-- `models.ThreatAssessment`. -/
structure ThreatAssessment where
  threat_score : Int
  threat_level : SeverityLevel
  recommended_action : String
  reasoning : List String
  should_block : Bool
  should_scan : Bool
deriving DecidableEq, Repr

/-- `models.ActionResponse`.  The Python model also carries a `timestamp`
string defaulted to creation time; it is modelled as the dispatch `now`. -/
structure ActionResponse where
  success : Bool
  action_taken : String
  tool_used : Option String := none
  result : Option String := none
  error : Option String := none
  timestamp : Int
deriving DecidableEq, Repr

/-- The mutable per-instance state of `ThreatAnalyzer`: `ip_history`,
`scan_cooldowns`, `block_cooldowns`, `blocked_ips` and the parsed
`whitelisted_ips` set (built once in `__init__`). -/
structure AnalyzerState where
  ip_history : String → List HistRecord
  scan_cooldowns : String → Option Int
  block_cooldowns : String → Option Int
  blocked_ips : String → Bool
  whitelisted_ips : List String

/-- Pointwise update of a string-keyed map (Python `d[k] = v`). -/
def updFn {α : Type} (f : String → α) (k : String) (v : α) : String → α :=
  fun x => if x = k then v else f x

/-- Python `str` whitespace (the set `str.strip()` removes). -/
def isPyWs (c : Char) : Bool :=
  c = ' ' || c = '\t' || c = '\n' || c = '\r' ||
    c = Char.ofNat 11 || c = Char.ofNat 12

/-- Python `s.strip()` on a character list. -/
def trimChars (l : List Char) : List Char :=
  ((l.dropWhile isPyWs).reverse.dropWhile isPyWs).reverse

/-- Python `s.split(',')` on a character list. -/
def splitCommaAux : List Char → List Char → List (List Char)
  | [], acc => [acc.reverse]
  | c :: rest, acc =>
    if c = ',' then acc.reverse :: splitCommaAux rest []
    else splitCommaAux rest (c :: acc)

/-- Whitelist parsing in `ThreatAnalyzer.__init__`:
`set(ip.strip() for ip in settings.WHITELISTED_IPS.split(',') if ip.strip())`. -/
def parseWhitelist (raw : String) : List String :=
  (((splitCommaAux raw.data []).map trimChars).filter
    (fun cs => !cs.isEmpty)).map (fun cs => String.mk cs)

/-- Fresh `ThreatAnalyzer` state as built by `__init__`. -/
def initState (s : Settings) : AnalyzerState :=
  { ip_history := fun _ => []
    scan_cooldowns := fun _ => none
    block_cooldowns := fun _ => none
    blocked_ips := fun _ => false
    whitelisted_ips := parseWhitelist s.WHITELISTED_IPS }

/-- Substring test, Python `needle in hay`. -/
def strContains (hay needle : String) : Bool :=
  (List.range (hay.data.length + 1)).any
    (fun i => needle.data.isPrefixOf (hay.data.drop i))

/-- `ThreatAnalyzer._get_recent_events(events, hours)`: the records whose
`timestamp` is strictly later than `utcnow() - timedelta(hours=hours)`. -/
def getRecentEvents (events : List HistRecord) (now : Int) (hours : Int) :
    List HistRecord :=
  let threshold := now - hours * 3600
  events.filter (fun e => decide (threshold < e.timestamp))

/-- `ThreatAnalyzer._record_event(event)`: append a history dict for the
event's source IP. -/
def recordEvent (st : AnalyzerState) (now : Int) (event : SecurityEvent) :
    AnalyzerState :=
  { st with
    ip_history := updFn st.ip_history event.source_ip
      (st.ip_history event.source_ip ++
        [{ event_type := event.event_type.value
           timestamp := now
           severity := event.severity.value
           details := event.details }]) }

/-- `ThreatAnalyzer._check_scan_cooldown(ip)`: true when no entry exists or
`utcnow() > last_scan + timedelta(seconds=SCAN_COOLDOWN_SECONDS)`. -/
def checkScanCooldown (s : Settings) (st : AnalyzerState) (now : Int)
    (ip : String) : Bool :=
  match st.scan_cooldowns ip with
  | none => true
  | some last_scan => decide (now > last_scan + s.SCAN_COOLDOWN_SECONDS)

/-- `ThreatAnalyzer._check_block_cooldown(ip)`: true when no entry exists or
`utcnow() > last_block + timedelta(seconds=BLOCK_IP_COOLDOWN_SECONDS)`. -/
def checkBlockCooldown (s : Settings) (st : AnalyzerState) (now : Int)
    (ip : String) : Bool :=
  match st.block_cooldowns ip with
  | none => true
  | some last_block => decide (now > last_block + s.BLOCK_IP_COOLDOWN_SECONDS)

/-- `self.scan_cooldowns[ip] = datetime.utcnow()` — the scan-class
`markFired` of the spec's Cooldown Gate. -/
def markScanFired (st : AnalyzerState) (ip : String) (at' : Int) :
    AnalyzerState :=
  { st with scan_cooldowns := updFn st.scan_cooldowns ip (some at') }

/-- `self.block_cooldowns[ip] = datetime.utcnow()` — the block-class
`markFired` of the spec's Cooldown Gate. -/
def markBlockFired (st : AnalyzerState) (ip : String) (at' : Int) :
    AnalyzerState :=
  { st with block_cooldowns := updFn st.block_cooldowns ip (some at') }

/-- Base score table of `_assess_threat` (`base_scores`); the dict lookup
default `50` is unreachable because the enum is closed and every member is
in the table. -/
def baseScore : EventType → Int
  | .FAILED_LOGIN_ATTEMPT => 10
  | .SUSPICIOUS_PORT_SCAN => 40
  | .CONFIRMED_BRUTE_FORCE => 90
  | .CONFIRMED_ATTACK => 95
  | .HIGH_CPU_USAGE => 20
  | .HIGH_MEMORY_USAGE => 20
  | .UNUSUAL_NETWORK_ACTIVITY => 50
  | .MALWARE_DETECTED => 100

/-- Render a value given in tenths with one decimal digit (the multiplier
values are exact tenths, so Python's `f"{m:.1f}"` agrees with this on
them). -/
def fmtTenths (tenths : Int) : String :=
  let ip := tenths / 10
  let fp := tenths % 10
  s!"{ip}.{fp}"

/-- `ThreatAnalyzer._assess_threat(event)`.  Faithful translation: base
score by event type, whitelist short-circuit, frequency multiplier
(`min(len * 0.2, 2.0)` for more than one recent event), failed-login
pattern bonus, clamp with `min(int(score), 100)`, tier thresholds
80/60/30, and action selection against `THREAT_SCORE_THRESHOLD`.  The
running float score is carried exactly in hundredths (`score100`): the
multiplier is carried in tenths (`min(n * 2, 20)` for `min(n * 0.2, 2.0)`),
`+30` is `+3000`, and `int(score)` is `score100 / 100` (floor division;
the score is never negative). -/
def assessThreat (s : Settings) (st : AnalyzerState) (now : Int)
    (event : SecurityEvent) : ThreatAssessment :=
  let source_ip := event.source_ip
  let event_type := event.event_type
  let base := baseScore event_type
  let etv := event_type.value
  let reasoning : List String := [s!"Base score for {etv}: {base}"]
  if source_ip ∈ st.whitelisted_ips then
    { threat_score := 0
      threat_level := .LOW
      recommended_action := "log_only"
      reasoning := reasoning ++
        [s!"IP {source_ip} is whitelisted - threat score set to 0"]
      should_block := false
      should_scan := false }
  else
    let ip_events := st.ip_history source_ip
    let recent_events := getRecentEvents ip_events now 24
    let n := recent_events.length
    let (score100, reasoning) :=
      if n > 1 then
        let multiplier10 : Int := min ((n : Int) * 2) 20
        let m := fmtTenths multiplier10
        (base * 10 * multiplier10,
          reasoning ++ [s!"{n} events in 24h: score multiplied by {m}x"])
      else ((base * 100 : Int), reasoning)
    let (score100, reasoning) :=
      if event_type = .FAILED_LOGIN_ATTEMPT then
        let failed_count := (recent_events.filter
          (fun e => e.event_type = EventType.FAILED_LOGIN_ATTEMPT.value)).length
        let thr := s.FAILED_LOGIN_THRESHOLD
        if failed_count ≥ s.FAILED_LOGIN_THRESHOLD then
          (score100 + 3000, reasoning ++
            [s!"{failed_count} failed logins (threshold: {thr}): +30 points"])
        else (score100, reasoning)
      else (score100, reasoning)
    let score : Int := min (score100 / 100) 100
    let threat_level :=
      if score ≥ 80 then SeverityLevel.CRITICAL
      else if score ≥ 60 then SeverityLevel.HIGH
      else if score ≥ 30 then SeverityLevel.MEDIUM
      else SeverityLevel.LOW
    let (recommended_action, should_block, should_scan) :=
      if score ≥ s.THREAT_SCORE_THRESHOLD then
        if event_type = .CONFIRMED_BRUTE_FORCE ∨
            event_type = .CONFIRMED_ATTACK then
          ("block_ip_and_scan", true, true)
        else if event_type = .SUSPICIOUS_PORT_SCAN then
          ("vulnerability_scan", false, true)
        else
          ("quick_scan", false, true)
      else if score ≥ 40 then
        ("quick_scan", false, true)
      else
        ("log_only", false, false)
    { threat_score := score
      threat_level := threat_level
      recommended_action := recommended_action
      reasoning := reasoning
      should_block := should_block
      should_scan := should_scan }

/-- One remote capability invocation the dispatcher can make through the
MCP client (`nmap_quick_scan`, `nmap_vulnerability_scan`, `block_ip`). -/
inductive ToolInvocation where
  | quickScan (ip : String)
  | vulnScan (ip : String)
  | blockIp (ip : String) (reason : String)
deriving DecidableEq, Repr

/-- Behaviour of the remote tool client for one dispatch: each invocation
either returns a result string (`.ok`) or raises (`.error msg`). -/
def Oracle : Type := ToolInvocation → Except String String

/-- The quick-scan block of `_execute_actions` (the
`assessment.should_scan and "quick" in assessment.recommended_action`
branch).  Returns the appended outcomes, the updated state, and the remote
invocations actually made. -/
def quickScanStep (s : Settings) (oracle : Oracle) (now : Int)
    (event : SecurityEvent) (assessment : ThreatAssessment)
    (st : AnalyzerState) :
    List ActionResponse × AnalyzerState × List ToolInvocation :=
  if assessment.should_scan && strContains assessment.recommended_action "quick" then
    if checkScanCooldown s st now event.source_ip then
      if s.DRY_RUN_MODE then
        ([{ success := true
            action_taken := "nmap_quick_scan"
            tool_used := some "nmap_quick_scan"
            result := some "\x7b\"dry_run\": true, \"action\": \"quick_scan\"\x7d"
            timestamp := now }],
          markScanFired st event.source_ip now, [])
      else
        match oracle (.quickScan event.source_ip) with
        | .ok r =>
          ([{ success := true
              action_taken := "nmap_quick_scan"
              tool_used := some "nmap_quick_scan"
              result := some r
              timestamp := now }],
            markScanFired st event.source_ip now, [.quickScan event.source_ip])
        | .error e =>
          ([{ success := false
              action_taken := "nmap_quick_scan"
              error := some e
              timestamp := now }],
            st, [.quickScan event.source_ip])
    else
      ([{ success := false
          action_taken := "nmap_quick_scan"
          error := some "Cooldown period active"
          timestamp := now }],
        st, [])
  else ([], st, [])

/-- The vulnerability-scan block of `_execute_actions`
(`assessment.should_scan and "vulnerability" in
assessment.recommended_action`).  Note: unlike the quick-scan block, its
cooldown branch has no `else` — on an active cooldown nothing is appended. -/
def vulnScanStep (s : Settings) (oracle : Oracle) (now : Int)
    (event : SecurityEvent) (assessment : ThreatAssessment)
    (st : AnalyzerState) :
    List ActionResponse × AnalyzerState × List ToolInvocation :=
  if assessment.should_scan &&
      strContains assessment.recommended_action "vulnerability" then
    if checkScanCooldown s st now event.source_ip then
      if s.DRY_RUN_MODE then
        ([{ success := true
            action_taken := "nmap_vulnerability_scan"
            tool_used := some "nmap_vulnerability_scan"
            result := some "\x7b\"dry_run\": true, \"action\": \"vulnerability_scan\"\x7d"
            timestamp := now }],
          markScanFired st event.source_ip now, [])
      else
        match oracle (.vulnScan event.source_ip) with
        | .ok r =>
          ([{ success := true
              action_taken := "nmap_vulnerability_scan"
              tool_used := some "nmap_vulnerability_scan"
              result := some r
              timestamp := now }],
            markScanFired st event.source_ip now, [.vulnScan event.source_ip])
        | .error e =>
          ([{ success := false
              action_taken := "nmap_vulnerability_scan"
              error := some e
              timestamp := now }],
            st, [.vulnScan event.source_ip])
    else ([], st, [])
  else ([], st, [])

/-- The block-IP block of `_execute_actions` (`assessment.should_block and
settings.ENABLE_AUTO_BLOCK`, whitelist re-check, block cooldown).  As in
the source, an active block cooldown and the whitelist re-check only log —
nothing is appended to the outcome list in those cases. -/
def blockStep (s : Settings) (oracle : Oracle) (now : Int)
    (event : SecurityEvent) (assessment : ThreatAssessment)
    (st : AnalyzerState) :
    List ActionResponse × AnalyzerState × List ToolInvocation :=
  if assessment.should_block && s.ENABLE_AUTO_BLOCK then
    if event.source_ip ∈ st.whitelisted_ips then ([], st, [])
    else if checkBlockCooldown s st now event.source_ip then
      let ip := event.source_ip
      let ts := assessment.threat_score
      let etv := event.event_type.value
      let reason := s!"Threat score: {ts}, Event: {etv}"
      if s.DRY_RUN_MODE then
        ([{ success := true
            action_taken := "block_ip_firewall"
            tool_used := some "block_ip_firewall"
            result := some
              s!"\x7b\"dry_run\": true, \"action\": \"block_ip\", \"ip\": \"{ip}\"\x7d"
            timestamp := now }],
          { markBlockFired st event.source_ip now with
              blocked_ips := updFn st.blocked_ips event.source_ip true }, [])
      else
        match oracle (.blockIp event.source_ip reason) with
        | .ok r =>
          ([{ success := true
              action_taken := "block_ip_firewall"
              tool_used := some "block_ip_firewall"
              result := some r
              timestamp := now }],
            { markBlockFired st event.source_ip now with
                blocked_ips := updFn st.blocked_ips event.source_ip true },
            [.blockIp event.source_ip reason])
        | .error e =>
          ([{ success := false
              action_taken := "block_ip_firewall"
              error := some e
              timestamp := now }],
            st, [.blockIp event.source_ip reason])
    else ([], st, [])
  else ([], st, [])

/-- `ThreatAnalyzer._execute_actions(event, assessment)`: the three action
blocks run in source order (quick scan, vulnerability scan, block IP),
threading `self`'s mutable state; the outcome list and the remote
invocations accumulate in that order. -/
def executeActions (s : Settings) (oracle : Oracle) (now : Int)
    (event : SecurityEvent) (assessment : ThreatAssessment)
    (st : AnalyzerState) :
    List ActionResponse × AnalyzerState × List ToolInvocation :=
  let r1 := quickScanStep s oracle now event assessment st
  let r2 := vulnScanStep s oracle now event assessment r1.2.1
  let r3 := blockStep s oracle now event assessment r2.2.1
  (r1.1 ++ r2.1 ++ r3.1, r3.2.1, r1.2.2 ++ r2.2.2 ++ r3.2.2)

/-- `ThreatAnalyzer.analyze_and_respond(event)`: record the event, assess
the threat (the assessment therefore sees the just-recorded event), then
execute the recommended actions. -/
def analyzeAndRespond (s : Settings) (oracle : Oracle) (now : Int)
    (st : AnalyzerState) (event : SecurityEvent) :
    List ActionResponse × AnalyzerState × List ToolInvocation :=
  let st1 := recordEvent st now event
  let assessment := assessThreat s st1 now event
  executeActions s oracle now event assessment st1

/-- `analyze_and_respond` together with the assessment it computed (the
assessment is logged and drives the dispatch; exposing it lets theorems
speak about score and tier of the same run). -/
def analyzeAndRespondFull (s : Settings) (oracle : Oracle) (now : Int)
    (st : AnalyzerState) (event : SecurityEvent) :
    ThreatAssessment ×
      (List ActionResponse × AnalyzerState × List ToolInvocation) :=
  let st1 := recordEvent st now event
  let assessment := assessThreat s st1 now event
  (assessment, executeActions s oracle now event assessment st1)

/-! ## MCP client (`mcp_client.py`) -/

/-- The mutable connection state of `MCPClientManager`: `_connected`,
`_available_tools`, `_connection_attempts`. -/
structure ClientState where
  connected : Bool
  available_tools : List String
  connection_attempts : Nat
deriving DecidableEq, Repr

/-- Fresh `MCPClientManager` state (`__init__`). -/
def ClientState.init : ClientState :=
  { connected := false, available_tools := [], connection_attempts := 0 }

/-- Environment of one attempt of `connect`: whether the transport setup,
session entry and `initialize()` all succeed within the connect timeout
(`handshakeOk`), and what `session.list_tools()` would yield afterwards
(`.ok names` or a raised exception `.error msg`). -/
structure ConnAttemptEnv where
  handshakeOk : Bool
  discovery : Except String (List String)

/-- `MCPClientManager._discover_tools()` given the `list_tools` outcome:
on success caches the tool names; a raised exception is swallowed and the
cache is reset to `[]` (the method never re-raises).  The `if not
self.session: return` guard is unreachable in the modelled flows because
every caller runs after a session was created in `connect`. -/
def discoverTools (outcome : Except String (List String))
    (st : ClientState) : ClientState :=
  match outcome with
  | .ok tools => { st with available_tools := tools }
  | .error _ => { st with available_tools := [] }

/-- The `for attempt in range(1, max_retries + 1)` loop of `connect`,
driven by the list of remaining attempt indices.  On a successful
handshake: `_connected = True`, `_discover_tools()` (its failure swallowed),
`return True`.  On failure with attempts left: sleep
`MCP_RETRY_DELAY * 2^(attempt-1)` (collected in the returned delay list)
and continue.  After the loop: `_connected = False`, `return False`. -/
def connectLoop (s : Settings) (env : Nat → ConnAttemptEnv)
    (st : ClientState) : List Nat → ClientState × Bool × List Nat
  | [] => ({ st with connected := false }, false, [])
  | attempt :: rest =>
    let st' := { st with connection_attempts := attempt }
    if (env attempt).handshakeOk then
      let st'' := discoverTools (env attempt).discovery
        { st' with connected := true }
      (st'', true, [])
    else if rest.isEmpty then
      ({ st' with connected := false }, false, [])
    else
      let delay := s.MCP_RETRY_DELAY * 2 ^ (attempt - 1)
      let (stf, r, ds) := connectLoop s env st' rest
      (stf, r, delay :: ds)

/-- `MCPClientManager.connect(retry)`: short-circuit when already
connected, else run the attempt loop over `1 .. max_retries` where
`max_retries = MCP_CONNECTION_RETRIES if retry else 1`.  Also returns the
backoff delays that were slept. -/
def connect (s : Settings) (env : Nat → ConnAttemptEnv) (st : ClientState)
    (retry : Bool) : ClientState × Bool × List Nat :=
  if st.connected then (st, true, [])
  else
    let max_retries := if retry then s.MCP_CONNECTION_RETRIES else 1
    connectLoop s env st ((List.range max_retries).map (· + 1))

/-- Outcome of the awaited `session.call_tool` inside `call_tool`: it can
exceed the per-call timeout, return a content list, or raise. -/
inductive InvokeOutcome where
  | timesOut
  | returns (contents : List String)
  | raises (msg : String)

/-- Environment of one `call_tool` run: how a (lazy) `connect` would go,
what a `_discover_tools` refresh would yield, and the invocation outcome. -/
structure CallToolEnv where
  connectEnv : Nat → ConnAttemptEnv
  refreshDiscovery : Except String (List String)
  invoke : InvokeOutcome

/-- The exceptions `call_tool` can raise, by raise site:
`connectFailed` — `RuntimeError("Failed to connect to MCP server")`;
`unknownTool` — `ValueError(f"Tool '{name}' not available on MCP server")`;
`timeout` — `RuntimeError` from the `asyncio.TimeoutError` handler;
`callFailed` — `RuntimeError` from the generic handler. -/
inductive CallError where
  | connectFailed
  | unknownTool (name : String)
  | timeout (msg : String)
  | callFailed (msg : String)
deriving DecidableEq, Repr

/-- `MCPClientManager.call_tool(tool_name, arguments)`: lazily connect when
not connected; refresh the tool cache once when the name is unknown; then
invoke with the hard per-call timeout.  A timeout raises and leaves the
state untouched; a generic exception whose lowercased message contains
"connection" or "stream" flips `_connected` to `False` before re-raising. -/
def callTool (s : Settings) (env : CallToolEnv) (st : ClientState)
    (toolName : String) : Except CallError String × ClientState :=
  let (st1, ok) :=
    if st.connected then (st, true)
    else
      let (st', r, _) := connect s env.connectEnv st true
      (st', r)
  if !ok then (.error .connectFailed, st1)
  else
    let (st2, known) :=
      if st1.available_tools.contains toolName then (st1, true)
      else
        let st' := discoverTools env.refreshDiscovery st1
        (st', st'.available_tools.contains toolName)
    if !known then (.error (.unknownTool toolName), st2)
    else
      match env.invoke with
      | .timesOut =>
        let T := s.MCP_CONNECTION_TIMEOUT
        (.error (.timeout s!"Tool \x27{toolName}\x27 timed out after {T}s"),
          st2)
      | .returns [] =>
        (.ok "\x7b\"error\": \"No output from tool\"\x7d", st2)
      | .returns (c :: _) => (.ok c, st2)
      | .raises msg =>
        let lower := msg.toLower
        let st3 :=
          if strContains lower "connection" || strContains lower "stream" then
            { st2 with connected := false }
          else st2
        (.error (.callFailed s!"Error calling tool \x27{toolName}\x27: {msg}"),
          st3)

/-! ## Theorems -/

/-- Claim C6: the cooldown gate allows an action class for a source iff no
prior entry exists or `now - last_fired_at` is strictly greater than that
class's cooldown duration; and after `markFired(ip, scan, t0)` with a
300-second scan cooldown, `allowed(ip, scan)` is false at `t0+100` and
true at `t0+301`. -/
theorem C6_cooldown_gate_iff :
    (∀ (s : Settings) (st : AnalyzerState) (now : Int) (ip : String),
      checkScanCooldown s st now ip = true ↔
        st.scan_cooldowns ip = none ∨
          ∃ last, st.scan_cooldowns ip = some last ∧
            now - last > s.SCAN_COOLDOWN_SECONDS) ∧
    (∀ (s : Settings) (st : AnalyzerState) (now : Int) (ip : String),
      checkBlockCooldown s st now ip = true ↔
        st.block_cooldowns ip = none ∨
          ∃ last, st.block_cooldowns ip = some last ∧
            now - last > s.BLOCK_IP_COOLDOWN_SECONDS) ∧
    (∀ (s : Settings) (st : AnalyzerState) (ip : String) (t0 : Int),
      s.SCAN_COOLDOWN_SECONDS = 300 →
        checkScanCooldown s (markScanFired st ip t0) (t0 + 100) ip = false ∧
        checkScanCooldown s (markScanFired st ip t0) (t0 + 301) ip = true) := by
  refine ⟨?_, ?_, ?_⟩
  · intro s st now ip
    cases h : st.scan_cooldowns ip with
    | none => simp [checkScanCooldown, h]
    | some last =>
      simp only [checkScanCooldown, h, decide_eq_true_eq,
        Option.some.injEq, reduceCtorEq, false_or]
      constructor
      · intro hgt
        exact ⟨last, rfl, by omega⟩
      · rintro ⟨l, hl, hgt⟩
        cases hl
        omega
  · intro s st now ip
    cases h : st.block_cooldowns ip with
    | none => simp [checkBlockCooldown, h]
    | some last =>
      simp only [checkBlockCooldown, h, decide_eq_true_eq,
        Option.some.injEq, reduceCtorEq, false_or]
      constructor
      · intro hgt
        exact ⟨last, rfl, by omega⟩
      · rintro ⟨l, hl, hgt⟩
        cases hl
        omega
  · intro s st ip t0 h300
    have hupd : (markScanFired st ip t0).scan_cooldowns ip = some t0 := by
      simp [markScanFired, updFn]
    simp only [checkScanCooldown, hupd, h300]
    constructor
    · simp only [decide_eq_false_iff_not]
      omega
    · simp only [decide_eq_true_eq]
      omega

/-- Witness for C6 at a concrete source and firing time. -/
theorem C6_cooldown_gate_iff_witness :
    checkScanCooldown {} (markScanFired (initState {}) "192.0.2.1" 0)
        100 "192.0.2.1" = false ∧
    checkScanCooldown {} (markScanFired (initState {}) "192.0.2.1" 0)
        301 "192.0.2.1" = true :=
  C6_cooldown_gate_iff.2.2 {} (initState {}) "192.0.2.1" 0 rfl

/-- Claim C7: when a tool invocation exceeds its per-call timeout,
`call_tool` fails with the timeout error and the client's connection state
is unchanged — in particular it stays connected. -/
theorem C7_timeout_preserves_connection (s : Settings) (env : CallToolEnv)
    (st : ClientState) (tn : String) (hconn : st.connected = true)
    (htool : st.available_tools.contains tn = true)
    (htimeout : env.invoke = .timesOut) :
    (callTool s env st tn).2 = st ∧
    (callTool s env st tn).1 =
      .error (.timeout
        s!"Tool \x27{tn}\x27 timed out after {s.MCP_CONNECTION_TIMEOUT}s") ∧
    (callTool s env st tn).2.connected = true := by
  have hm : tn ∈ st.available_tools := by simpa using htool
  unfold callTool
  rw [hconn, htimeout]
  simp [hm, hconn]

/-- Witness for C7 at a concrete connected client state. -/
theorem C7_timeout_preserves_connection_witness :
    (callTool {}
        { connectEnv := fun _ => { handshakeOk := false, discovery := .ok [] }
          refreshDiscovery := .ok []
          invoke := .timesOut }
        { connected := true, available_tools := ["nmap_quick_scan"]
          connection_attempts := 1 }
        "nmap_quick_scan").2 =
      { connected := true, available_tools := ["nmap_quick_scan"]
        connection_attempts := 1 } ∧
    (callTool {}
        { connectEnv := fun _ => { handshakeOk := false, discovery := .ok [] }
          refreshDiscovery := .ok []
          invoke := .timesOut }
        { connected := true, available_tools := ["nmap_quick_scan"]
          connection_attempts := 1 }
        "nmap_quick_scan").1 =
      .error (.timeout "Tool \x27nmap_quick_scan\x27 timed out after 30s") ∧
    (callTool {}
        { connectEnv := fun _ => { handshakeOk := false, discovery := .ok [] }
          refreshDiscovery := .ok []
          invoke := .timesOut }
        { connected := true, available_tools := ["nmap_quick_scan"]
          connection_attempts := 1 }
        "nmap_quick_scan").2.connected = true :=
  C7_timeout_preserves_connection {} _ _ "nmap_quick_scan" rfl (by decide) rfl

/-- The recent-events query as the analyzer performs it
(`ip_events = self.ip_history.get(source_ip, [])` followed by
`self._get_recent_events(ip_events, hours)`); the state component records
that the query does not mutate the analyzer. -/
def recentEventsQuery (st : AnalyzerState) (ip : String) (now : Int)
    (hours : Int) : List HistRecord × AnalyzerState :=
  (getRecentEvents (st.ip_history ip) now hours, st)

/-- Claim C9: with no intervening record for the queried source, two
recent-events queries return identical sequences — the query mutates
nothing, and a record for a *different* source does not change the
answer. -/
theorem C9_recent_events_idempotent (st : AnalyzerState) (ip : String)
    (now hours now' : Int) (e : SecurityEvent) (h : e.source_ip ≠ ip) :
    ((recentEventsQuery st ip now hours).1 =
      (recentEventsQuery (recentEventsQuery st ip now hours).2 ip
        now hours).1) ∧
    (recentEventsQuery st ip now hours).2 = st ∧
    (recentEventsQuery (recordEvent st now' e) ip now hours).1 =
      (recentEventsQuery st ip now hours).1 := by
  refine ⟨rfl, rfl, ?_⟩
  simp only [recentEventsQuery, recordEvent, updFn]
  rw [if_neg (show ¬ ip = e.source_ip from fun hc => h hc.symm)]

/-- Witness for C9 at a concrete state and event. -/
theorem C9_recent_events_idempotent_witness :
    ((recentEventsQuery (initState {}) "192.0.2.1" 1000 24).1 =
      (recentEventsQuery
        (recentEventsQuery (initState {}) "192.0.2.1" 1000 24).2 "192.0.2.1"
        1000 24).1) ∧
    (recentEventsQuery (initState {}) "192.0.2.1" 1000 24).2 =
      initState {} ∧
    (recentEventsQuery
        (recordEvent (initState {}) 500
          { event_type := .FAILED_LOGIN_ATTEMPT, source_ip := "198.51.100.7" })
        "192.0.2.1" 1000 24).1 =
      (recentEventsQuery (initState {}) "192.0.2.1" 1000 24).1 :=
  C9_recent_events_idempotent (initState {}) "192.0.2.1" 1000 24 500
    { event_type := .FAILED_LOGIN_ATTEMPT, source_ip := "198.51.100.7" }
    (by decide)

/-- Recording an event does not change the whitelist. -/
lemma recordEvent_whitelist (st : AnalyzerState) (now : Int)
    (event : SecurityEvent) :
    (recordEvent st now event).whitelisted_ips = st.whitelisted_ips := rfl

/-- The whitelist short-circuit of `_assess_threat`. -/
lemma assessThreat_whitelisted (s : Settings) (st : AnalyzerState)
    (now : Int) (event : SecurityEvent)
    (h : event.source_ip ∈ st.whitelisted_ips) :
    (assessThreat s st now event).threat_score = 0 ∧
    (assessThreat s st now event).threat_level = .LOW ∧
    (assessThreat s st now event).recommended_action = "log_only" ∧
    (assessThreat s st now event).should_block = false ∧
    (assessThreat s st now event).should_scan = false := by
  unfold assessThreat
  rw [if_pos h]
  exact ⟨rfl, rfl, rfl, rfl, rfl⟩

/-- Without a scan recommendation the quick-scan block is skipped. -/
lemma quickScanStep_no_scan (s : Settings) (oracle : Oracle) (now : Int)
    (event : SecurityEvent) (assessment : ThreatAssessment)
    (st : AnalyzerState) (h : assessment.should_scan = false) :
    quickScanStep s oracle now event assessment st = ([], st, []) := by
  simp [quickScanStep, h]

/-- Without a scan recommendation the vulnerability-scan block is skipped. -/
lemma vulnScanStep_no_scan (s : Settings) (oracle : Oracle) (now : Int)
    (event : SecurityEvent) (assessment : ThreatAssessment)
    (st : AnalyzerState) (h : assessment.should_scan = false) :
    vulnScanStep s oracle now event assessment st = ([], st, []) := by
  simp [vulnScanStep, h]

/-- Without a block recommendation the block block is skipped. -/
lemma blockStep_no_block (s : Settings) (oracle : Oracle) (now : Int)
    (event : SecurityEvent) (assessment : ThreatAssessment)
    (st : AnalyzerState) (h : assessment.should_block = false) :
    blockStep s oracle now event assessment st = ([], st, []) := by
  simp [blockStep, h]

/-- With the auto-block feature flag off the block block is skipped. -/
lemma blockStep_disabled (s : Settings) (oracle : Oracle) (now : Int)
    (event : SecurityEvent) (assessment : ThreatAssessment)
    (st : AnalyzerState) (h : s.ENABLE_AUTO_BLOCK = false) :
    blockStep s oracle now event assessment st = ([], st, []) := by
  simp [blockStep, h]

/-- The quick-scan block only appends quick-scan outcomes, only invokes the
quick-scan capability, and does not touch block cooldowns, the blocked
set, or the whitelist. -/
lemma quickScanStep_frame (s : Settings) (oracle : Oracle) (now : Int)
    (event : SecurityEvent) (assessment : ThreatAssessment)
    (st : AnalyzerState) :
    (quickScanStep s oracle now event assessment st).2.1.block_cooldowns =
      st.block_cooldowns ∧
    (quickScanStep s oracle now event assessment st).2.1.blocked_ips =
      st.blocked_ips ∧
    (quickScanStep s oracle now event assessment st).2.1.whitelisted_ips =
      st.whitelisted_ips ∧
    (∀ a ∈ (quickScanStep s oracle now event assessment st).1,
      a.action_taken = "nmap_quick_scan") ∧
    (∀ c ∈ (quickScanStep s oracle now event assessment st).2.2,
      c = .quickScan event.source_ip) := by
  unfold quickScanStep
  repeat' split
  all_goals simp [markScanFired]

/-- The vulnerability-scan block only appends vulnerability-scan outcomes,
only invokes the vulnerability-scan capability, and does not touch block
cooldowns, the blocked set, or the whitelist. -/
lemma vulnScanStep_frame (s : Settings) (oracle : Oracle) (now : Int)
    (event : SecurityEvent) (assessment : ThreatAssessment)
    (st : AnalyzerState) :
    (vulnScanStep s oracle now event assessment st).2.1.block_cooldowns =
      st.block_cooldowns ∧
    (vulnScanStep s oracle now event assessment st).2.1.blocked_ips =
      st.blocked_ips ∧
    (vulnScanStep s oracle now event assessment st).2.1.whitelisted_ips =
      st.whitelisted_ips ∧
    (∀ a ∈ (vulnScanStep s oracle now event assessment st).1,
      a.action_taken = "nmap_vulnerability_scan") ∧
    (∀ c ∈ (vulnScanStep s oracle now event assessment st).2.2,
      c = .vulnScan event.source_ip) := by
  unfold vulnScanStep
  repeat' split
  all_goals simp [markScanFired]

/-- Claim C4: for every event from a whitelisted source the assessment's
score is exactly 0 with tier low and no recommended block or scan, and the
dispatch produces no outcomes and no remote invocations at all — in
particular no block is ever dispatched, regardless of history. -/
theorem C4_whitelisted_never_scored_or_blocked (s : Settings)
    (oracle : Oracle) (now : Int) (st : AnalyzerState)
    (event : SecurityEvent) (h : event.source_ip ∈ st.whitelisted_ips) :
    (analyzeAndRespondFull s oracle now st event).1.threat_score = 0 ∧
    (analyzeAndRespondFull s oracle now st event).1.threat_level = .LOW ∧
    (analyzeAndRespondFull s oracle now st event).1.should_block = false ∧
    (analyzeAndRespondFull s oracle now st event).1.should_scan = false ∧
    (analyzeAndRespondFull s oracle now st event).2.1 = [] ∧
    (analyzeAndRespondFull s oracle now st event).2.2.2 = [] := by
  have h1 : event.source_ip ∈ (recordEvent st now event).whitelisted_ips := by
    rw [recordEvent_whitelist]
    exact h
  obtain ⟨hs0, hlv, _, hnb, hns⟩ :=
    assessThreat_whitelisted s (recordEvent st now event) now event h1
  have hq := quickScanStep_no_scan s oracle now event
    (assessThreat s (recordEvent st now event) now event)
    (recordEvent st now event) hns
  have hv := vulnScanStep_no_scan s oracle now event
    (assessThreat s (recordEvent st now event) now event)
    (recordEvent st now event) hns
  have hb := blockStep_no_block s oracle now event
    (assessThreat s (recordEvent st now event) now event)
    (recordEvent st now event) hnb
  refine ⟨hs0, hlv, hnb, hns, ?_, ?_⟩ <;>
    simp [analyzeAndRespondFull, executeActions, hq, hv, hb]

/-- Witness for C4: a dispatch for the default-whitelisted loopback source. -/
theorem C4_whitelisted_never_scored_or_blocked_witness :
    (analyzeAndRespondFull {} (fun _ => .ok "ok") 1000 (initState {})
        { event_type := .CONFIRMED_ATTACK
          source_ip := "127.0.0.1" }).1.threat_score = 0 ∧
    (analyzeAndRespondFull {} (fun _ => .ok "ok") 1000 (initState {})
        { event_type := .CONFIRMED_ATTACK
          source_ip := "127.0.0.1" }).1.threat_level = .LOW ∧
    (analyzeAndRespondFull {} (fun _ => .ok "ok") 1000 (initState {})
        { event_type := .CONFIRMED_ATTACK
          source_ip := "127.0.0.1" }).1.should_block = false ∧
    (analyzeAndRespondFull {} (fun _ => .ok "ok") 1000 (initState {})
        { event_type := .CONFIRMED_ATTACK
          source_ip := "127.0.0.1" }).1.should_scan = false ∧
    (analyzeAndRespondFull {} (fun _ => .ok "ok") 1000 (initState {})
        { event_type := .CONFIRMED_ATTACK
          source_ip := "127.0.0.1" }).2.1 = [] ∧
    (analyzeAndRespondFull {} (fun _ => .ok "ok") 1000 (initState {})
        { event_type := .CONFIRMED_ATTACK
          source_ip := "127.0.0.1" }).2.2.2 = [] :=
  C4_whitelisted_never_scored_or_blocked {} (fun _ => .ok "ok") 1000
    (initState {}) { event_type := .CONFIRMED_ATTACK
                     source_ip := "127.0.0.1" } (by decide)

/-- Claim C10: with the auto-block feature flag disabled, a dispatch whose
assessment recommends blocking never invokes the remote block capability,
never updates the block cooldown or the blocked set, and records no block
outcome in the returned action list. -/
theorem C10_autoblock_disabled_no_block (s : Settings) (oracle : Oracle)
    (now : Int) (event : SecurityEvent) (assessment : ThreatAssessment)
    (st : AnalyzerState) (hflag : s.ENABLE_AUTO_BLOCK = false)
    (hrec : assessment.should_block = true) :
    (∀ a ∈ (executeActions s oracle now event assessment st).1,
      a.action_taken ≠ "block_ip_firewall") ∧
    (∀ ip reason, ToolInvocation.blockIp ip reason ∉
      (executeActions s oracle now event assessment st).2.2) ∧
    (executeActions s oracle now event assessment st).2.1.block_cooldowns =
      st.block_cooldowns ∧
    (executeActions s oracle now event assessment st).2.1.blocked_ips =
      st.blocked_ips := by
  obtain ⟨hqb, hqs, -, hqa, hqc⟩ :=
    quickScanStep_frame s oracle now event assessment st
  obtain ⟨hvb, hvs, -, hva, hvc⟩ :=
    vulnScanStep_frame s oracle now event assessment
      (quickScanStep s oracle now event assessment st).2.1
  have hb := blockStep_disabled s oracle now event assessment
    (vulnScanStep s oracle now event assessment
      (quickScanStep s oracle now event assessment st).2.1).2.1 hflag
  refine ⟨?_, ?_, ?_, ?_⟩
  · intro a ha
    simp only [executeActions, hb, List.append_nil, List.mem_append] at ha
    rcases ha with ha | ha
    · rw [hqa a ha]
      decide
    · rw [hva a ha]
      decide
  · intro ip reason hmem
    simp only [executeActions, hb, List.append_nil, List.mem_append] at hmem
    rcases hmem with hmem | hmem
    · exact absurd (hqc _ hmem) (by simp)
    · exact absurd (hvc _ hmem) (by simp)
  · simp only [executeActions, hb]
    rw [hvb, hqb]
  · simp only [executeActions, hb]
    rw [hvs, hqs]

/-- Witness for C10: auto-block off, a confirmed attack recommending a
block produces no block invocation and leaves the block state untouched. -/
theorem C10_autoblock_disabled_no_block_witness :
    (∀ a ∈ (executeActions { ENABLE_AUTO_BLOCK := false }
        (fun _ => .ok "ok") 1000
        { event_type := .CONFIRMED_ATTACK, source_ip := "203.0.113.5" }
        { threat_score := 95, threat_level := .CRITICAL
          recommended_action := "block_ip_and_scan", reasoning := []
          should_block := true, should_scan := true }
        (initState { ENABLE_AUTO_BLOCK := false })).1,
      a.action_taken ≠ "block_ip_firewall") ∧
    (∀ ip reason, ToolInvocation.blockIp ip reason ∉
      (executeActions { ENABLE_AUTO_BLOCK := false }
        (fun _ => .ok "ok") 1000
        { event_type := .CONFIRMED_ATTACK, source_ip := "203.0.113.5" }
        { threat_score := 95, threat_level := .CRITICAL
          recommended_action := "block_ip_and_scan", reasoning := []
          should_block := true, should_scan := true }
        (initState { ENABLE_AUTO_BLOCK := false })).2.2) ∧
    (executeActions { ENABLE_AUTO_BLOCK := false }
        (fun _ => .ok "ok") 1000
        { event_type := .CONFIRMED_ATTACK, source_ip := "203.0.113.5" }
        { threat_score := 95, threat_level := .CRITICAL
          recommended_action := "block_ip_and_scan", reasoning := []
          should_block := true, should_scan := true }
        (initState { ENABLE_AUTO_BLOCK := false })).2.1.block_cooldowns =
      (initState { ENABLE_AUTO_BLOCK := false }).block_cooldowns ∧
    (executeActions { ENABLE_AUTO_BLOCK := false }
        (fun _ => .ok "ok") 1000
        { event_type := .CONFIRMED_ATTACK, source_ip := "203.0.113.5" }
        { threat_score := 95, threat_level := .CRITICAL
          recommended_action := "block_ip_and_scan", reasoning := []
          should_block := true, should_scan := true }
        (initState { ENABLE_AUTO_BLOCK := false })).2.1.blocked_ips =
      (initState { ENABLE_AUTO_BLOCK := false }).blocked_ips :=
  C10_autoblock_disabled_no_block { ENABLE_AUTO_BLOCK := false }
    (fun _ => .ok "ok") 1000
    { event_type := .CONFIRMED_ATTACK, source_ip := "203.0.113.5" }
    { threat_score := 95, threat_level := .CRITICAL
      recommended_action := "block_ip_and_scan", reasoning := []
      should_block := true, should_scan := true }
    (initState { ENABLE_AUTO_BLOCK := false }) rfl rfl

/-- Claim C1 (divergence witness): for a `confirmed_attack` event from a
source with empty prior history at the default action threshold 70, the
assessment scores 95 ≥ 90 with tier critical and `should_scan = True`,
yet the dispatched outcome list contains only the block — no scan of any
kind is attempted, because `_execute_actions` matches the substrings
"quick" and "vulnerability", neither of which occurs in
`"block_ip_and_scan"`. -/
theorem C1_confirmed_attack_block_without_scan :
    (analyzeAndRespondFull {} (fun _ => .ok "ok") 1000000 (initState {})
        { event_type := .CONFIRMED_ATTACK
          source_ip := "203.0.113.5" }).1.threat_score ≥ 90 ∧
    (analyzeAndRespondFull {} (fun _ => .ok "ok") 1000000 (initState {})
        { event_type := .CONFIRMED_ATTACK
          source_ip := "203.0.113.5" }).1.threat_level = .CRITICAL ∧
    (analyzeAndRespondFull {} (fun _ => .ok "ok") 1000000 (initState {})
        { event_type := .CONFIRMED_ATTACK
          source_ip := "203.0.113.5" }).1.recommended_action =
      "block_ip_and_scan" ∧
    (analyzeAndRespondFull {} (fun _ => .ok "ok") 1000000 (initState {})
        { event_type := .CONFIRMED_ATTACK
          source_ip := "203.0.113.5" }).1.should_scan = true ∧
    ((analyzeAndRespondFull {} (fun _ => .ok "ok") 1000000 (initState {})
        { event_type := .CONFIRMED_ATTACK
          source_ip := "203.0.113.5" }).2.1.map
      (fun a => a.action_taken)) = ["block_ip_firewall"] := by
  decide

/-- With dry-run on, the quick-scan block never invokes the client. -/
lemma quickScanStep_dry_no_calls (s : Settings) (oracle : Oracle)
    (now : Int) (event : SecurityEvent) (assessment : ThreatAssessment)
    (st : AnalyzerState) (hdry : s.DRY_RUN_MODE = true) :
    (quickScanStep s oracle now event assessment st).2.2 = [] := by
  unfold quickScanStep
  repeat' split
  all_goals simp_all

/-- With dry-run on, the vulnerability-scan block never invokes the
client. -/
lemma vulnScanStep_dry_no_calls (s : Settings) (oracle : Oracle)
    (now : Int) (event : SecurityEvent) (assessment : ThreatAssessment)
    (st : AnalyzerState) (hdry : s.DRY_RUN_MODE = true) :
    (vulnScanStep s oracle now event assessment st).2.2 = [] := by
  unfold vulnScanStep
  repeat' split
  all_goals simp_all

/-- With dry-run on, the block-IP block never invokes the client. -/
lemma blockStep_dry_no_calls (s : Settings) (oracle : Oracle)
    (now : Int) (event : SecurityEvent) (assessment : ThreatAssessment)
    (st : AnalyzerState) (hdry : s.DRY_RUN_MODE = true) :
    (blockStep s oracle now event assessment st).2.2 = [] := by
  unfold blockStep
  repeat' split
  all_goals simp_all

/-- Claim C2 (counterexample): with dry-run enabled, two consecutive
dispatches for the same source that both recommend the quick-scan action
do NOT both record synthetic successes: the first does and — contrary to
the claim — writes the scan cooldown, so the second is suppressed with a
"Cooldown period active" failure. -/
theorem C2_counterexample_dry_run_consumes_cooldown :
    ((analyzeAndRespond { DRY_RUN_MODE := true } (fun _ => .ok "ok") 1000000
        (initState { DRY_RUN_MODE := true })
        { event_type := .MALWARE_DETECTED, source_ip := "198.51.100.7" }).1.map
      (fun a => (a.success, a.result))) =
      [(true, some "\x7b\"dry_run\": true, \"action\": \"quick_scan\"\x7d")] ∧
    (analyzeAndRespond { DRY_RUN_MODE := true } (fun _ => .ok "ok") 1000000
        (initState { DRY_RUN_MODE := true })
        { event_type := .MALWARE_DETECTED
          source_ip := "198.51.100.7" }).2.1.scan_cooldowns "198.51.100.7" =
      some 1000000 ∧
    (analyzeAndRespondFull { DRY_RUN_MODE := true } (fun _ => .ok "ok") 1000001
        (analyzeAndRespond { DRY_RUN_MODE := true } (fun _ => .ok "ok") 1000000
          (initState { DRY_RUN_MODE := true })
          { event_type := .MALWARE_DETECTED, source_ip := "198.51.100.7" }).2.1
        { event_type := .MALWARE_DETECTED
          source_ip := "198.51.100.7" }).1.recommended_action = "quick_scan" ∧
    ((analyzeAndRespond { DRY_RUN_MODE := true } (fun _ => .ok "ok") 1000001
        (analyzeAndRespond { DRY_RUN_MODE := true } (fun _ => .ok "ok") 1000000
          (initState { DRY_RUN_MODE := true })
          { event_type := .MALWARE_DETECTED, source_ip := "198.51.100.7" }).2.1
        { event_type := .MALWARE_DETECTED, source_ip := "198.51.100.7" }).1.map
      (fun a => (a.success, a.error))) =
      [(false, some "Cooldown period active")] := by
  decide

/-- Claim C2 (amended): with dry-run enabled a dispatch never invokes the
remote tool client, and an allowed quick-scan records a synthetic success
— but it DOES write the scan cooldown, which is what suppresses the next
consecutive dispatch. -/
theorem C2_amended_dry_run_no_client_but_mutates_cooldown (s : Settings)
    (oracle : Oracle) (now : Int) (event : SecurityEvent)
    (assessment : ThreatAssessment) (st : AnalyzerState)
    (hdry : s.DRY_RUN_MODE = true) :
    (executeActions s oracle now event assessment st).2.2 = [] ∧
    (assessment.should_scan = true →
      strContains assessment.recommended_action "quick" = true →
      checkScanCooldown s st now event.source_ip = true →
      (quickScanStep s oracle now event assessment st).1 =
        [{ success := true
           action_taken := "nmap_quick_scan"
           tool_used := some "nmap_quick_scan"
           result := some "\x7b\"dry_run\": true, \"action\": \"quick_scan\"\x7d"
           timestamp := now }] ∧
      (quickScanStep s oracle now event assessment st).2.1.scan_cooldowns
        event.source_ip = some now) := by
  constructor
  · simp only [executeActions, List.append_assoc, List.append_eq_nil]
    exact ⟨quickScanStep_dry_no_calls s oracle now event assessment st hdry,
      vulnScanStep_dry_no_calls s oracle now event assessment _ hdry,
      blockStep_dry_no_calls s oracle now event assessment _ hdry⟩
  · intro h1 h2 h3
    unfold quickScanStep
    rw [h1, h2, h3, hdry]
    simp [markScanFired, updFn]

/-- The settings with global dry-run mode enabled. -/
def dryRunSettings : Settings := { DRY_RUN_MODE := true }

/-- A malware event from a non-whitelisted source. -/
def malwareEvent : SecurityEvent :=
  { event_type := .MALWARE_DETECTED, source_ip := "198.51.100.7" }

/-- An assessment recommending a quick scan. -/
def quickScanAssessment : ThreatAssessment :=
  { threat_score := 100, threat_level := .CRITICAL
    recommended_action := "quick_scan", reasoning := []
    should_block := false, should_scan := true }

/-- Witness for the amended C2 at a concrete dry-run dispatch, with every
hypothesis discharged. -/
theorem C2_amended_dry_run_no_client_but_mutates_cooldown_witness :
    (executeActions dryRunSettings (fun _ => .ok "ok") 1000000 malwareEvent
        quickScanAssessment (initState dryRunSettings)).2.2 = [] ∧
    (quickScanStep dryRunSettings (fun _ => .ok "ok") 1000000 malwareEvent
        quickScanAssessment (initState dryRunSettings)).1 =
      [{ success := true
         action_taken := "nmap_quick_scan"
         tool_used := some "nmap_quick_scan"
         result := some "\x7b\"dry_run\": true, \"action\": \"quick_scan\"\x7d"
         timestamp := 1000000 }] ∧
    (quickScanStep dryRunSettings (fun _ => .ok "ok") 1000000 malwareEvent
        quickScanAssessment (initState dryRunSettings)).2.1.scan_cooldowns
      malwareEvent.source_ip = some 1000000 :=
  ⟨(C2_amended_dry_run_no_client_but_mutates_cooldown dryRunSettings
      (fun _ => .ok "ok") 1000000 malwareEvent quickScanAssessment
      (initState dryRunSettings) rfl).1,
    ((C2_amended_dry_run_no_client_but_mutates_cooldown dryRunSettings
      (fun _ => .ok "ok") 1000000 malwareEvent quickScanAssessment
      (initState dryRunSettings) rfl).2 rfl (by decide) (by decide)).1,
    ((C2_amended_dry_run_no_client_but_mutates_cooldown dryRunSettings
      (fun _ => .ok "ok") 1000000 malwareEvent quickScanAssessment
      (initState dryRunSettings) rfl).2 rfl (by decide) (by decide)).2⟩

/-- Claim C5 (counterexample): a dispatch whose assessment recommends the
vulnerability scan while the scan cooldown gate returns false records NO
outcome at all — the outcome list is empty instead of containing a
failed cooldown-active outcome (the client is, as claimed, not invoked). -/
theorem C5_counterexample_vuln_cooldown_silent :
    (analyzeAndRespondFull { THREAT_SCORE_THRESHOLD := 40 }
        (fun _ => .ok "ok") 1000000
        { initState { THREAT_SCORE_THRESHOLD := 40 } with
            scan_cooldowns := fun ip =>
              if ip = "192.0.2.9" then some 999990 else none }
        { event_type := .SUSPICIOUS_PORT_SCAN
          source_ip := "192.0.2.9" }).1.recommended_action =
      "vulnerability_scan" ∧
    (analyzeAndRespondFull { THREAT_SCORE_THRESHOLD := 40 }
        (fun _ => .ok "ok") 1000000
        { initState { THREAT_SCORE_THRESHOLD := 40 } with
            scan_cooldowns := fun ip =>
              if ip = "192.0.2.9" then some 999990 else none }
        { event_type := .SUSPICIOUS_PORT_SCAN
          source_ip := "192.0.2.9" }).1.should_scan = true ∧
    checkScanCooldown { THREAT_SCORE_THRESHOLD := 40 }
      (recordEvent
        { initState { THREAT_SCORE_THRESHOLD := 40 } with
            scan_cooldowns := fun ip =>
              if ip = "192.0.2.9" then some 999990 else none }
        1000000
        { event_type := .SUSPICIOUS_PORT_SCAN, source_ip := "192.0.2.9" })
      1000000 "192.0.2.9" = false ∧
    (analyzeAndRespondFull { THREAT_SCORE_THRESHOLD := 40 }
        (fun _ => .ok "ok") 1000000
        { initState { THREAT_SCORE_THRESHOLD := 40 } with
            scan_cooldowns := fun ip =>
              if ip = "192.0.2.9" then some 999990 else none }
        { event_type := .SUSPICIOUS_PORT_SCAN
          source_ip := "192.0.2.9" }).2.1 = [] ∧
    (analyzeAndRespondFull { THREAT_SCORE_THRESHOLD := 40 }
        (fun _ => .ok "ok") 1000000
        { initState { THREAT_SCORE_THRESHOLD := 40 } with
            scan_cooldowns := fun ip =>
              if ip = "192.0.2.9" then some 999990 else none }
        { event_type := .SUSPICIOUS_PORT_SCAN
          source_ip := "192.0.2.9" }).2.2.2 = [] := by
  decide

/-- Claim C5 (amended): when a cooldown gate returns false the dispatcher
never invokes the remote tool client, but only the quick-scan action
records a failed "Cooldown period active" outcome; the vulnerability-scan
and block actions record no outcome at all. -/
theorem C5_amended_cooldown_outcomes (s : Settings) (oracle : Oracle)
    (now : Int) (event : SecurityEvent) (assessment : ThreatAssessment)
    (st : AnalyzerState) :
    (checkScanCooldown s st now event.source_ip = false →
      (quickScanStep s oracle now event assessment st).2.2 = [] ∧
      (assessment.should_scan = true →
        strContains assessment.recommended_action "quick" = true →
        quickScanStep s oracle now event assessment st =
          ([{ success := false
              action_taken := "nmap_quick_scan"
              error := some "Cooldown period active"
              timestamp := now }], st, [])) ∧
      vulnScanStep s oracle now event assessment st = ([], st, [])) ∧
    (checkBlockCooldown s st now event.source_ip = false →
      blockStep s oracle now event assessment st = ([], st, [])) := by
  constructor
  · intro hs
    refine ⟨?_, ?_, ?_⟩
    · unfold quickScanStep
      rw [hs]
      split <;> simp
    · intro h1 h2
      unfold quickScanStep
      rw [h1, h2, hs]
      simp
    · unfold vulnScanStep
      rw [hs]
      split <;> simp
  · intro hb
    unfold blockStep
    rw [hb]
    repeat' split
    all_goals simp_all

/-- A port-scan event from a non-whitelisted source. -/
def portScanEvent : SecurityEvent :=
  { event_type := .SUSPICIOUS_PORT_SCAN, source_ip := "192.0.2.9" }

/-- An assessment recommending a vulnerability scan. -/
def vulnScanAssessment : ThreatAssessment :=
  { threat_score := 72, threat_level := .HIGH
    recommended_action := "vulnerability_scan", reasoning := []
    should_block := false, should_scan := true }

/-- An analyzer state whose scan and block cooldowns were all marked fired
at time 999990. -/
def cooldownState : AnalyzerState :=
  { initState {} with
      scan_cooldowns := fun _ => some 999990
      block_cooldowns := fun _ => some 999990 }

/-- Witness for the amended C5 at concrete cooldown-suppressed
dispatches, with every hypothesis discharged. -/
theorem C5_amended_cooldown_outcomes_witness :
    (quickScanStep {} (fun _ => .ok "ok") 1000000 portScanEvent
        vulnScanAssessment cooldownState).2.2 = [] ∧
    vulnScanStep {} (fun _ => .ok "ok") 1000000 portScanEvent
      vulnScanAssessment cooldownState = ([], cooldownState, []) ∧
    blockStep {} (fun _ => .ok "ok") 1000000 portScanEvent
      vulnScanAssessment cooldownState = ([], cooldownState, []) ∧
    quickScanStep {} (fun _ => .ok "ok") 1000000 portScanEvent
      quickScanAssessment cooldownState =
      ([{ success := false
          action_taken := "nmap_quick_scan"
          error := some "Cooldown period active"
          timestamp := 1000000 }], cooldownState, []) :=
  ⟨((C5_amended_cooldown_outcomes {} (fun _ => .ok "ok") 1000000
      portScanEvent vulnScanAssessment cooldownState).1 (by decide)).1,
    ((C5_amended_cooldown_outcomes {} (fun _ => .ok "ok") 1000000
      portScanEvent vulnScanAssessment cooldownState).1 (by decide)).2.2,
    (C5_amended_cooldown_outcomes {} (fun _ => .ok "ok") 1000000
      portScanEvent vulnScanAssessment cooldownState).2 (by decide),
    (((C5_amended_cooldown_outcomes {} (fun _ => .ok "ok") 1000000
      portScanEvent quickScanAssessment cooldownState).1 (by decide)).2.1
      rfl (by decide))⟩

/-- `_discover_tools` never touches the attempt counter. -/
lemma discoverTools_attempts (o : Except String (List String))
    (st : ClientState) :
    (discoverTools o st).connection_attempts = st.connection_attempts := by
  cases o <;> rfl

/-- The attempt loop reports success iff some attempt in the remaining
list has a successful handshake; the discovery outcome never matters. -/
lemma connectLoop_true_iff (s : Settings) (env : Nat → ConnAttemptEnv) :
    ∀ (l : List Nat) (st : ClientState),
      (connectLoop s env st l).2.1 = true ↔
        ∃ a ∈ l, (env a).handshakeOk = true := by
  intro l
  induction l with
  | nil => intro st; simp [connectLoop]
  | cons a rest ih =>
    intro st
    unfold connectLoop
    by_cases h : (env a).handshakeOk = true
    · simp [h]
    · by_cases hr : rest.isEmpty
      · rw [List.isEmpty_iff] at hr
        subst hr
        simp [h]
      · rw [if_neg h, if_neg hr]
        dsimp only
        rw [ih]
        constructor
        · rintro ⟨x, hx, hok⟩
          exact ⟨x, List.mem_cons_of_mem a hx, hok⟩
        · rintro ⟨x, hx, hok⟩
          rcases List.mem_cons.mp hx with rfl | hx'
          · exact absurd hok h
          · exact ⟨x, hx', hok⟩

/-- When the attempt loop reports failure, it has set the state
disconnected. -/
lemma connectLoop_false_disconnected (s : Settings)
    (env : Nat → ConnAttemptEnv) :
    ∀ (l : List Nat) (st : ClientState),
      (connectLoop s env st l).2.1 = false →
        (connectLoop s env st l).1.connected = false := by
  intro l
  induction l with
  | nil => intro st _; simp [connectLoop]
  | cons a rest ih =>
    intro st hf
    unfold connectLoop at hf ⊢
    by_cases h : (env a).handshakeOk = true
    · simp [h] at hf
    · by_cases hr : rest.isEmpty
      · rw [List.isEmpty_iff] at hr
        subst hr
        simp [h]
      · simp only [h, if_false, hr] at hf ⊢
        exact ih _ hf

/-- The attempt counter after the loop is either untouched or one of the
attempt indices that were run. -/
lemma connectLoop_attempts (s : Settings) (env : Nat → ConnAttemptEnv) :
    ∀ (l : List Nat) (st : ClientState),
      (connectLoop s env st l).1.connection_attempts =
          st.connection_attempts ∨
        (connectLoop s env st l).1.connection_attempts ∈ l := by
  intro l
  induction l with
  | nil => intro st; left; simp [connectLoop]
  | cons a rest ih =>
    intro st
    unfold connectLoop
    by_cases h : (env a).handshakeOk = true
    · rw [if_pos h]
      dsimp only
      right
      rw [discoverTools_attempts]
      exact List.mem_cons_self a rest
    · by_cases hr : rest.isEmpty
      · rw [if_neg h, if_pos hr]
        right
        exact List.mem_cons_self a rest
      · rw [if_neg h, if_neg hr]
        dsimp only
        rcases ih { st with connection_attempts := a } with hsame | hmem
        · right
          rw [hsame]
          exact List.mem_cons_self a rest
        · right
          exact List.mem_cons_of_mem a hmem

/-- The loop sleeps strictly fewer times than it has attempts left. -/
lemma connectLoop_delays_lt (s : Settings) (env : Nat → ConnAttemptEnv) :
    ∀ (l : List Nat) (st : ClientState), l ≠ [] →
      (connectLoop s env st l).2.2.length < l.length := by
  intro l
  induction l with
  | nil => intro st hne; exact absurd rfl hne
  | cons a rest ih =>
    intro st _
    unfold connectLoop
    by_cases h : (env a).handshakeOk = true
    · simp [h]
    · by_cases hr : rest.isEmpty
      · simp [h, hr]
      · rw [if_neg h, if_neg hr]
        dsimp only
        have hne' : rest ≠ [] := fun hc => by simp [hc] at hr
        simp only [List.length_cons]
        exact Nat.succ_lt_succ
          (ih { st with connection_attempts := a } hne')

/-- Each slept delay is the exponential backoff of the attempt index at
the same position in the remaining attempt list. -/
lemma connectLoop_delays_get (s : Settings) (env : Nat → ConnAttemptEnv) :
    ∀ (l : List Nat) (st : ClientState) (i : Nat) (v : Nat),
      (connectLoop s env st l).2.2.get? i = some v →
        ∃ a, l.get? i = some a ∧ v = s.MCP_RETRY_DELAY * 2 ^ (a - 1) := by
  intro l
  induction l with
  | nil => intro st i v hv; simp [connectLoop] at hv
  | cons a rest ih =>
    intro st i v hv
    unfold connectLoop at hv
    by_cases h : (env a).handshakeOk = true
    · simp [h] at hv
    · by_cases hr : rest.isEmpty
      · simp [h, hr] at hv
      · simp only [h, if_false, hr] at hv
        cases i with
        | zero =>
          simp only [List.get?] at hv ⊢
          exact ⟨a, rfl, (Option.some.injEq _ _).mp hv.symm ▸ by
            cases hv; rfl⟩
        | succ j =>
          simp only [List.get?] at hv ⊢
          exact ih _ j v hv

/-- Claim C3 (counterexample): with a first attempt whose handshake
succeeds but whose tool-discovery round raises, `connect` still returns
`true` and leaves the client connected (with an empty tool cache) — the
discovery failure is swallowed by `_discover_tools`, so `connect` does
not return `true` "only when both succeed". -/
theorem C3_counterexample_connect_true_without_discovery :
    (connect {}
        (fun _ => { handshakeOk := true, discovery := .error "network error" })
        ClientState.init true).2.1 = true ∧
    (connect {}
        (fun _ => { handshakeOk := true, discovery := .error "network error" })
        ClientState.init true).1.connected = true ∧
    (connect {}
        (fun _ => { handshakeOk := true, discovery := .error "network error" })
        ClientState.init true).1.available_tools = [] ∧
    ((fun _ => { handshakeOk := true, discovery := .error "network error" } :
        Nat → ConnAttemptEnv) 1).discovery = .error "network error" :=
  ⟨rfl, rfl, rfl, rfl⟩

/-- Claim C3 (amended): `connect` returns `true` iff the handshake of some
allowed attempt succeeds — the tool-discovery outcome does not affect the
return value (a failed discovery is swallowed, leaving the cache empty) —
and when every allowed attempt's handshake fails it returns `false` and
leaves the state disconnected. -/
theorem C3_amended_connect_true_iff_handshake (s : Settings)
    (env : Nat → ConnAttemptEnv) (st : ClientState)
    (h : st.connected = false) :
    ((connect s env st true).2.1 = true ↔
      ∃ i, 1 ≤ i ∧ i ≤ s.MCP_CONNECTION_RETRIES ∧
        (env i).handshakeOk = true) ∧
    ((connect s env st true).2.1 = false →
      (connect s env st true).1.connected = false) := by
  have hstep : connect s env st true =
      connectLoop s env st
        ((List.range s.MCP_CONNECTION_RETRIES).map (· + 1)) := by
    unfold connect
    rw [h]
    rfl
  rw [hstep]
  constructor
  · rw [connectLoop_true_iff]
    constructor
    · rintro ⟨a, hmem, hok⟩
      rcases List.mem_map.mp hmem with ⟨b, hb, hba⟩
      rw [List.mem_range] at hb
      exact ⟨a, by omega, by omega, hok⟩
    · rintro ⟨i, h1, h2, hok⟩
      refine ⟨i, List.mem_map.mpr ⟨i - 1, ?_, by omega⟩, hok⟩
      rw [List.mem_range]
      omega
  · exact connectLoop_false_disconnected s env _ st

/-- Witness for the amended C3: all three default-allowed attempts fail,
so `connect` returns `false` with a disconnected state. -/
theorem C3_amended_connect_true_iff_handshake_witness :
    ((connect {} (fun _ => { handshakeOk := false, discovery := .ok [] })
        ClientState.init true).2.1 = true ↔
      ∃ i, 1 ≤ i ∧ i ≤ ({} : Settings).MCP_CONNECTION_RETRIES ∧
        ((fun _ => { handshakeOk := false, discovery := .ok [] } :
          Nat → ConnAttemptEnv) i).handshakeOk = true) ∧
    ((connect {} (fun _ => { handshakeOk := false, discovery := .ok [] })
        ClientState.init true).2.1 = false →
      (connect {} (fun _ => { handshakeOk := false, discovery := .ok [] })
        ClientState.init true).1.connected = false) :=
  C3_amended_connect_true_iff_handshake {}
    (fun _ => { handshakeOk := false, discovery := .ok [] })
    ClientState.init rfl

/-- Claim C8: starting from a fresh disconnected client, `connect` with
retry makes at most `MCP_CONNECTION_RETRIES` attempts (the attempt counter
never exceeds it), sleeps at most `MCP_CONNECTION_RETRIES - 1` times, and
the delay slept before attempt `n+1` (position `n-1` in the delay list)
is `MCP_RETRY_DELAY * 2 ^ (n - 1)`. -/
theorem C8_connect_retry_bounded_backoff (s : Settings)
    (env : Nat → ConnAttemptEnv) (st : ClientState)
    (hc : st.connected = false) (ha : st.connection_attempts = 0) :
    (connect s env st true).1.connection_attempts ≤
      s.MCP_CONNECTION_RETRIES ∧
    (connect s env st true).2.2.length ≤ s.MCP_CONNECTION_RETRIES - 1 ∧
    (∀ i v, (connect s env st true).2.2.get? i = some v →
      v = s.MCP_RETRY_DELAY * 2 ^ i) := by
  have hstep : connect s env st true =
      connectLoop s env st
        ((List.range s.MCP_CONNECTION_RETRIES).map (· + 1)) := by
    unfold connect
    rw [hc]
    rfl
  rw [hstep]
  refine ⟨?_, ?_, ?_⟩
  · rcases connectLoop_attempts s env
        ((List.range s.MCP_CONNECTION_RETRIES).map (· + 1)) st with
      hsame | hmem
    · rw [hsame, ha]
      exact Nat.zero_le _
    · rcases List.mem_map.mp hmem with ⟨b, hb, hba⟩
      rw [List.mem_range] at hb
      omega
  · rcases Nat.eq_zero_or_pos s.MCP_CONNECTION_RETRIES with h0 | hpos
    · rw [h0]
      simp [connectLoop]
    · have hne : ((List.range s.MCP_CONNECTION_RETRIES).map (· + 1)) ≠
          ([] : List Nat) := by
        simp only [ne_eq, List.map_eq_nil, List.range_eq_nil]
        omega
      have hlt := connectLoop_delays_lt s env
        ((List.range s.MCP_CONNECTION_RETRIES).map (· + 1)) st hne
      rw [List.length_map, List.length_range] at hlt
      omega
  · intro i v hv
    rcases connectLoop_delays_get s env
        ((List.range s.MCP_CONNECTION_RETRIES).map (· + 1)) st i v hv with
      ⟨a, hga, hval⟩
    rw [List.get?_map] at hga
    rcases Option.map_eq_some'.mp hga with ⟨b, hgb, hba⟩
    have hbi : b = i := by
      have hlt : i < s.MCP_CONNECTION_RETRIES := by
        by_contra hge
        rw [List.get?_eq_none.mpr (by simpa using Nat.le_of_not_lt hge)]
          at hgb
        exact Option.noConfusion hgb
      rw [List.get?_range hlt] at hgb
      exact (Option.some.injEq _ _).mp hgb.symm
    subst hbi
    subst hba
    simpa using hval

/-- Witness for C8: with every attempt failing at the default settings,
`connect` stops after 3 attempts with backoff delays 5 and 10. -/
theorem C8_connect_retry_bounded_backoff_witness :
    (connect {} (fun _ => { handshakeOk := false, discovery := .ok [] })
        ClientState.init true).1.connection_attempts ≤
      ({} : Settings).MCP_CONNECTION_RETRIES ∧
    (connect {} (fun _ => { handshakeOk := false, discovery := .ok [] })
        ClientState.init true).2.2.length ≤
      ({} : Settings).MCP_CONNECTION_RETRIES - 1 ∧
    (∀ i v, (connect {}
        (fun _ => { handshakeOk := false, discovery := .ok [] })
        ClientState.init true).2.2.get? i = some v →
      v = ({} : Settings).MCP_RETRY_DELAY * 2 ^ i) :=
  C8_connect_retry_bounded_backoff {}
    (fun _ => { handshakeOk := false, discovery := .ok [] })
    ClientState.init rfl rfl

end AutoShield
